import Mathlib

/-!
# Verification of the two-agent poem-generation pipeline

Shallow embedding of `src/demo.ipynb`: a two-node linear LangGraph pipeline
that sends an image to an Analyst agent (captioning) and then a Creator agent
(poem writing).  Messages, agents, the graph builder and the stream runner are
translated from the notebook; the base64 transport encoding is modelled from
the documented behaviour of Python's `base64.b64encode` / `b64decode`
(RFC 4648, standard alphabet), since only the library call appears in the
source.
-/

namespace PoemPipeline

/-! ## Messages and conversation state -/

/-- One structured content part of a LangChain message: either plain text or an
`image_url` part carrying a data URI, as built in the notebook's initial
message. -/
inductive ContentPart where
  | text (s : String)
  | image_url (url : String)
deriving DecidableEq

/-- Content of a message: a plain string (agent outputs) or a list of
structured parts (the multi-modal initial message). -/
inductive MessageContent where
  | text (s : String)
  | parts (ps : List ContentPart)
deriving DecidableEq

/-- A LangChain chat message: a role (`"human"`, `"ai"`, `"system"`), its
content, and an optional `name` tag identifying the producing agent. -/
structure Message where
  role : String
  content : MessageContent
  name : Option String
deriving DecidableEq

/-- `HumanMessage(content=..., name=...)` from `langchain_core.messages`. -/
def HumanMessage (content : MessageContent) (name : Option String) : Message :=
  { role := "human", content := content, name := name }

/-- A system message, as produced by the `("system", system_prompt)` entry of
the `ChatPromptTemplate`. -/
def SystemMessage (s : String) : Message :=
  { role := "system", content := MessageContent.text s, name := none }

/-- An AI completion message, as returned by a chat model client. -/
def AIMessage (s : String) : Message :=
  { role := "ai", content := MessageContent.text s, name := none }

/-- Modelled from the spec: the error taxonomy of section 7 (the notebook has
no explicit error-handling code; a failing model call raises and aborts the
run). -/
inductive ModelError where
  | connectionError
  | validationError
  | upstreamGenerationError
deriving DecidableEq

/-- A model client (`ChatOllama` instance): maps a formatted conversation to a
completion message, or fails. -/
def ModelClient : Type :=
  List Message → Except ModelError Message

/-! ## Base64 and the data-URI transport format

The notebook encodes the image file bytes with `base64.b64encode` and embeds
them in `data:image/jpeg;base64,<payload>`.  `b64encode`/`b64decode` below are
modelled from the spec of that library call (RFC 4648 standard base64), over
byte values as `Nat`s below 256. -/

/-- The standard base64 alphabet, table position `n` holding the character for
sextet value `n`. -/
def b64Table : List Char :=
  "ABCDEFGHIJKLMNOPQRSTUVWXYZabcdefghijklmnopqrstuvwxyz0123456789+/".toList

/-- Character for a sextet value (`n < 64`). -/
def sextetChar (n : Nat) : Char :=
  b64Table.getD n 'A'

/-- Sextet value of a base64 alphabet character. -/
def sextetVal (c : Char) : Nat :=
  b64Table.indexOf c

/-- Standard base64 encoding of a byte sequence: groups of three bytes become
four sextet characters; a trailing group of one or two bytes is padded with
`=`. -/
def b64encode : List Nat → List Char
  | [] => []
  | [a] =>
      [sextetChar (a / 4), sextetChar (a % 4 * 16), '=', '=']
  | [a, b] =>
      [sextetChar (a / 4), sextetChar (a % 4 * 16 + b / 16),
       sextetChar (b % 16 * 4), '=']
  | a :: b :: d :: rest =>
      sextetChar (a / 4) :: sextetChar (a % 4 * 16 + b / 16) ::
      sextetChar (b % 16 * 4 + d / 64) :: sextetChar (d % 64) ::
      b64encode rest

/-- Standard base64 decoding of the payload: consumes four characters at a
time, honouring `=` padding. -/
def b64decode : List Char → List Nat
  | c1 :: c2 :: c3 :: c4 :: rest =>
      let v1 := sextetVal c1
      let v2 := sextetVal c2
      if c3 = '=' then
        [v1 * 4 + v2 / 16]
      else
        let v3 := sextetVal c3
        if c4 = '=' then
          [v1 * 4 + v2 / 16, v2 % 16 * 16 + v3 / 4]
        else
          (v1 * 4 + v2 / 16) :: (v2 % 16 * 16 + v3 / 4) ::
          (v3 % 4 * 64 + sextetVal c4) :: b64decode rest
  | _ => []

/-- The notebook's `encoded_string`: the base64 text of the image bytes. -/
def encoded_string (imageBytes : List Nat) : String :=
  String.mk (b64encode imageBytes)

/-- The notebook's data URI `f"data:image/jpeg;base64,{encoded_string}"`. -/
def image_data_uri (imageBytes : List Nat) : String :=
  "data:image/jpeg;base64," ++ encoded_string imageBytes

theorem sextetVal_sextetChar : ∀ n : Nat, n < 64 → sextetVal (sextetChar n) = n := by
  decide

theorem sextetChar_ne_pad : ∀ n : Nat, n < 64 → sextetChar n ≠ '=' := by
  decide

/-- Base64 round-trip: decoding the encoding of any byte sequence recovers the
bytes. -/
theorem b64decode_b64encode :
    ∀ l : List Nat, (∀ b ∈ l, b < 256) → b64decode (b64encode l) = l
  | [] => fun _ => rfl
  | [a] => fun h => by
      have ha : a < 256 := h a (by simp)
      simp only [b64encode, b64decode, if_true]
      rw [sextetVal_sextetChar (a / 4) (by omega),
          sextetVal_sextetChar (a % 4 * 16) (by omega)]
      simp only [List.cons.injEq, and_true]
      omega
  | [a, b] => fun h => by
      have ha : a < 256 := h a (by simp)
      have hb : b < 256 := h b (by simp)
      simp only [b64encode, b64decode,
        if_neg (sextetChar_ne_pad (b % 16 * 4) (by omega)), if_true]
      rw [sextetVal_sextetChar (a / 4) (by omega),
          sextetVal_sextetChar (a % 4 * 16 + b / 16) (by omega),
          sextetVal_sextetChar (b % 16 * 4) (by omega)]
      simp only [List.cons.injEq, and_true]
      constructor <;> omega
  | a :: b :: d :: rest => fun h => by
      have ha : a < 256 := h a (by simp)
      have hb : b < 256 := h b (by simp)
      have hd : d < 256 := h d (by simp)
      have ih : b64decode (b64encode rest) = rest :=
        b64decode_b64encode rest (fun x hx => h x (by simp [hx]))
      simp only [b64encode, b64decode,
        if_neg (sextetChar_ne_pad (b % 16 * 4 + d / 64) (by omega)),
        if_neg (sextetChar_ne_pad (d % 64) (by omega))]
      rw [sextetVal_sextetChar (a / 4) (by omega),
          sextetVal_sextetChar (a % 4 * 16 + b / 16) (by omega),
          sextetVal_sextetChar (b % 16 * 4 + d / 64) (by omega),
          sextetVal_sextetChar (d % 64) (by omega), ih]
      simp only [List.cons.injEq, and_true]
      refine ⟨by omega, by omega, by omega⟩

/-! ## Agents (`create_agent`, `agent_node`) -/

/-- The `ChatPromptTemplate.from_messages([("system", system_prompt),
MessagesPlaceholder("messages")])` of the notebook: a fixed system prompt in
front of a messages placeholder. -/
structure ChatPromptTemplate where
  system_prompt : String
deriving DecidableEq

/-- Formatting the template on a conversation: the system message followed by
the placeholder's messages. -/
def ChatPromptTemplate.format (t : ChatPromptTemplate) (messages : List Message) :
    List Message :=
  SystemMessage t.system_prompt :: messages

/-- The runnable `prompt | llm` returned by `create_agent`. -/
structure Agent where
  prompt : ChatPromptTemplate
  llm : ModelClient

/-- `create_agent(llm, system_prompt)` from the notebook. -/
def create_agent (llm : ModelClient) (system_prompt : String) : Agent :=
  { prompt := { system_prompt := system_prompt }, llm := llm }

/-- `agent.invoke(messages)`: format the prompt and run the model client. -/
def Agent.invoke (a : Agent) (messages : List Message) : Except ModelError Message :=
  a.llm (a.prompt.format messages)

/-- The graph state `State(TypedDict)` of the notebook: a list of messages
annotated with the `add_messages` reducer. -/
structure State where
  messages : List Message
deriving DecidableEq

/-- The LangGraph `add_messages` reducer.  With fresh messages (no ids, the
only case the notebook exercises) it appends the update to the existing
list. -/
def add_messages (left right : List Message) : List Message :=
  left ++ right

/-- `agent_node(state, agent, name)` from the notebook: invoke the agent on
`state["messages"]` and return the update dict
`{"messages": [HumanMessage(content=result.content, name=name)]}`.  A model
failure raises, i.e. propagates as the error. -/
def agent_node (state : State) (agent : Agent) (name : String) :
    Except ModelError State :=
  match agent.invoke state.messages with
  | Except.error e => Except.error e
  | Except.ok result =>
      Except.ok { messages := [HumanMessage result.content (some name)] }

/-! ## The concrete agents and graph of the notebook -/

/-- The notebook's `analysis_prompt` string. -/
def analysis_prompt : String :=
  "You are the Analyst Agent, an expert in visual analysis. \nYour task is to examine images in detail and provide a comprehensive description \nof what you see. Describe the scene as thoroughly as possible"

/-- The notebook's `creative_prompt` string. -/
def creative_prompt : String :=
  "You are the Creator Agent, a talented poet and creative writer. \nYour task is to take detailed descriptions of images provided by the Analyst Agent \nand craft a funny poem based on the imagery and emotions conveyed. "

/-- `analysis_agent = create_agent(analysis_llm, creative_prompt)` — note the
notebook passes `creative_prompt`, not `analysis_prompt`.  The `ChatOllama`
model clients are external endpoints, taken as parameters. -/
def analysis_agent (analysis_llm : ModelClient) : Agent :=
  create_agent analysis_llm creative_prompt

/-- `creative_agent = create_agent(creative_llm, creative_prompt)`. -/
def creative_agent (creative_llm : ModelClient) : Agent :=
  create_agent creative_llm creative_prompt

/-- `functools.partial(agent_node, agent=analysis_agent, name="Analysis Agent")`. -/
def analysis_node (analysis_llm : ModelClient) : State → Except ModelError State :=
  fun state => agent_node state (analysis_agent analysis_llm) "Analysis Agent"

/-- `functools.partial(agent_node, agent=creative_agent, name="Creative Agent")`. -/
def creative_node (creative_llm : ModelClient) : State → Except ModelError State :=
  fun state => agent_node state (creative_agent creative_llm) "Creative Agent"

/-- LangGraph's `START` sentinel node name. -/
def START : String := "__start__"

/-- LangGraph's `END` sentinel node name. -/
def END : String := "__end__"

/-- A compiled state graph: the named nodes added with `add_node` and the
directed edges added with `add_edge`. -/
structure CompiledGraph where
  nodes : List (String × (State → Except ModelError State))
  edges : List (String × String)

/-- The nodes registered on `graph_builder` by the two `add_node` calls. -/
def graph_builder_nodes (analysis_llm creative_llm : ModelClient) :
    List (String × (State → Except ModelError State)) :=
  [("Analysis Agent", analysis_node analysis_llm),
   ("Creative Agent", creative_node creative_llm)]

/-- The edges registered on `graph_builder` by the three `add_edge` calls:
START → Analysis Agent → Creative Agent → END. -/
def graph_builder_edges : List (String × String) :=
  [(START, "Analysis Agent"),
   ("Analysis Agent", "Creative Agent"),
   ("Creative Agent", END)]

/-- `graph = graph_builder.compile()`. -/
def graph (analysis_llm creative_llm : ModelClient) : CompiledGraph :=
  { nodes := graph_builder_nodes analysis_llm creative_llm,
    edges := graph_builder_edges }

/-- Outcome of `graph.stream(...)`: the events emitted (node name and the
state after that node's update was merged), and, if a node raised, the name of
the failing node with its error. -/
structure StreamResult where
  events : List (String × State)
  failed : Option (String × ModelError)
deriving Nonempty

/-- One-step-at-a-time execution of a linear compiled graph from node `cur`:
follow the unique outgoing edge, run the target node on the current state,
merge its update with the `add_messages` reducer, emit the event, continue.
`fuel` bounds the number of steps. -/
def streamFrom (g : CompiledGraph) : Nat → String → State → StreamResult
  | 0, _, _ => { events := [], failed := none }
  | Nat.succ fuel, cur, st =>
      match (g.edges.find? (fun e => e.fst == cur)).map Prod.snd with
      | none => { events := [], failed := none }
      | some nxt =>
          if nxt = END then { events := [], failed := none }
          else
            match (g.nodes.find? (fun n => n.fst == nxt)).map Prod.snd with
            | none => { events := [], failed := none }
            | some f =>
                match f st with
                | Except.error e => { events := [], failed := some (nxt, e) }
                | Except.ok upd =>
                    let st' : State := { messages := add_messages st.messages upd.messages }
                    let r := streamFrom g fuel nxt st'
                    { events := (nxt, st') :: r.events, failed := r.failed }

/-- `graph.stream(init)`: run from `START` with enough fuel to visit every
node once. -/
def CompiledGraph.stream (g : CompiledGraph) (init : State) : StreamResult :=
  streamFrom g (g.nodes.length + 1) START init

/-- The printed lines of the notebook's streaming loop: for each event, the
`name` and `content` of the last message of that event's state. -/
def stream_output (r : StreamResult) : List (Option String × MessageContent) :=
  r.events.filterMap (fun e => e.snd.messages.getLast?.map (fun m => (m.name, m.content)))

/-- Whether a message carries an image part. -/
def Message.hasImage (m : Message) : Bool :=
  match m.content with
  | MessageContent.parts ps =>
      ps.any (fun p => match p with
        | ContentPart.image_url _ => true
        | ContentPart.text _ => false)
  | MessageContent.text _ => false

/-! ## Execution lemmas for the linear graph -/

theorem streamFrom_step_error (g : CompiledGraph) (fuel : Nat) (cur nxt : String)
    (f : State → Except ModelError State) (st : State) (e : ModelError)
    (hedge : (g.edges.find? (fun p => p.fst == cur)).map Prod.snd = some nxt)
    (hne : nxt ≠ END)
    (hnode : (g.nodes.find? (fun p => p.fst == nxt)).map Prod.snd = some f)
    (hf : f st = Except.error e) :
    streamFrom g (fuel + 1) cur st = { events := [], failed := some (nxt, e) } := by
  simp only [streamFrom, hedge, hnode, hf, if_neg hne]

theorem streamFrom_step_ok (g : CompiledGraph) (fuel : Nat) (cur nxt : String)
    (f : State → Except ModelError State) (st upd : State)
    (hedge : (g.edges.find? (fun p => p.fst == cur)).map Prod.snd = some nxt)
    (hne : nxt ≠ END)
    (hnode : (g.nodes.find? (fun p => p.fst == nxt)).map Prod.snd = some f)
    (hf : f st = Except.ok upd) :
    streamFrom g (fuel + 1) cur st =
      { events := (nxt, { messages := add_messages st.messages upd.messages }) ::
          (streamFrom g fuel nxt { messages := add_messages st.messages upd.messages }).events,
        failed := (streamFrom g fuel nxt { messages := add_messages st.messages upd.messages }).failed } := by
  simp only [streamFrom, hedge, hnode, hf, if_neg hne]

theorem streamFrom_step_end (g : CompiledGraph) (fuel : Nat) (cur : String) (st : State)
    (hedge : (g.edges.find? (fun p => p.fst == cur)).map Prod.snd = some END) :
    streamFrom g (fuel + 1) cur st = { events := [], failed := none } := by
  simp only [streamFrom, hedge, if_true]

/-- Full characterisation of `graph.stream`: the run is determined by the two
`agent_node` invocations, performed in the fixed order Analysis Agent then
Creative Agent. -/
theorem graph_stream_eq (aLLM cLLM : ModelClient) (init : State) :
    (graph aLLM cLLM).stream init =
      match agent_node init (analysis_agent aLLM) "Analysis Agent" with
      | Except.error e => { events := [], failed := some ("Analysis Agent", e) }
      | Except.ok u1 =>
          match agent_node { messages := add_messages init.messages u1.messages }
              (creative_agent cLLM) "Creative Agent" with
          | Except.error e =>
              { events := [("Analysis Agent",
                    { messages := add_messages init.messages u1.messages })],
                failed := some ("Creative Agent", e) }
          | Except.ok u2 =>
              { events := [("Analysis Agent",
                    { messages := add_messages init.messages u1.messages }),
                  ("Creative Agent",
                    { messages := add_messages (add_messages init.messages u1.messages) u2.messages })],
                failed := none } := by
  show streamFrom (graph aLLM cLLM) (2 + 1) START init = _
  cases h1 : agent_node init (analysis_agent aLLM) "Analysis Agent" with
  | error e =>
      rw [streamFrom_step_error (graph aLLM cLLM) 2 START "Analysis Agent"
        (analysis_node aLLM) init e rfl (by decide) rfl h1]
  | ok u1 =>
      rw [streamFrom_step_ok (graph aLLM cLLM) 2 START "Analysis Agent"
        (analysis_node aLLM) init u1 rfl (by decide) rfl h1]
      cases h2 : agent_node { messages := add_messages init.messages u1.messages }
          (creative_agent cLLM) "Creative Agent" with
      | error e =>
          rw [streamFrom_step_error (graph aLLM cLLM) 1 "Analysis Agent" "Creative Agent"
            (creative_node cLLM) { messages := add_messages init.messages u1.messages } e rfl
            (by decide) rfl h2]
          simp only [h2]
      | ok u2 =>
          rw [streamFrom_step_ok (graph aLLM cLLM) 1 "Analysis Agent" "Creative Agent"
            (creative_node cLLM) { messages := add_messages init.messages u1.messages } u2 rfl
            (by decide) rfl h2]
          rw [streamFrom_step_end (graph aLLM cLLM) 0 "Creative Agent"
            { messages := add_messages (add_messages init.messages u1.messages) u2.messages } rfl]
          simp only [h2]

/-- A run that did not fail performed both model invocations, in order: the
analyst on the initial conversation, the creator on the conversation extended
with the analyst's message; the two emitted events hold the corresponding
conversations. -/
theorem stream_ok_spec (aLLM cLLM : ModelClient) (init : State)
    (hok : ((graph aLLM cLLM).stream init).failed = none) :
    ∃ r1 r2 : Message,
      (analysis_agent aLLM).invoke init.messages = Except.ok r1 ∧
      (creative_agent cLLM).invoke
        (init.messages ++ [HumanMessage r1.content (some "Analysis Agent")]) = Except.ok r2 ∧
      ((graph aLLM cLLM).stream init).events =
        [("Analysis Agent",
           { messages := init.messages ++ [HumanMessage r1.content (some "Analysis Agent")] }),
         ("Creative Agent",
           { messages := (init.messages ++ [HumanMessage r1.content (some "Analysis Agent")]) ++
               [HumanMessage r2.content (some "Creative Agent")] })] := by
  have h := graph_stream_eq aLLM cLLM init
  cases hi1 : (analysis_agent aLLM).invoke init.messages with
  | error e =>
      have h1 : agent_node init (analysis_agent aLLM) "Analysis Agent" = Except.error e := by
        simp [agent_node, hi1]
      rw [h1] at h
      rw [h] at hok
      simp at hok
  | ok r1 =>
      have h1 : agent_node init (analysis_agent aLLM) "Analysis Agent" =
          Except.ok { messages := [HumanMessage r1.content (some "Analysis Agent")] } := by
        simp [agent_node, hi1]
      simp only [h1, add_messages] at h
      cases hi2 : (creative_agent cLLM).invoke
          (init.messages ++ [HumanMessage r1.content (some "Analysis Agent")]) with
      | error e =>
          have h2 : agent_node
              { messages := init.messages ++ [HumanMessage r1.content (some "Analysis Agent")] }
              (creative_agent cLLM) "Creative Agent" = Except.error e := by
            simp [agent_node, hi2]
          simp only [h2] at h
          rw [h] at hok
          simp at hok
      | ok r2 =>
          have h2 : agent_node
              { messages := init.messages ++ [HumanMessage r1.content (some "Analysis Agent")] }
              (creative_agent cLLM) "Creative Agent" =
              Except.ok { messages := [HumanMessage r2.content (some "Creative Agent")] } := by
            simp [agent_node, hi2]
          simp only [h2] at h
          exact ⟨r1, r2, rfl, hi2, by rw [h]⟩

/-! ## Concrete witnesses: stub model clients and the hedgehog input -/

/-- A stub captioning client that always returns the fixed caption. -/
def stub_caption_client : ModelClient :=
  fun _ => Except.ok (AIMessage "a small hedgehog on grass")

/-- A stub poem client that always returns the fixed poem. -/
def stub_poem_client : ModelClient :=
  fun _ => Except.ok (AIMessage "Quills like stars...")

/-- A client whose endpoint is unreachable: every call fails. -/
def failing_client : ModelClient :=
  fun _ => Except.error ModelError.connectionError

/-- Sample JPEG bytes (SOI marker and APP0 lead-in). -/
def hedgehog_bytes : List Nat := [255, 216, 255, 224]

/-- The notebook's initial message: an `image_url` part holding the data URI
of the image file. -/
def hedgehog_message : Message :=
  HumanMessage
    (MessageContent.parts [ContentPart.image_url (image_data_uri hedgehog_bytes)]) none

/-! ## Claims -/

/-- C1: For every valid initial message containing an image, a full pipeline
run appends exactly two messages to the conversation, in fixed order: first a
message named for the Analyst agent ("Analysis Agent"), then a message named
for the Creator agent ("Creative Agent"). -/
theorem claim_run_appends_two_messages (aLLM cLLM : ModelClient) (m : Message)
    (_him : m.hasImage = true)
    (hok : ((graph aLLM cLLM).stream { messages := [m] }).failed = none) :
    ∃ t1 t2 : MessageContent,
      ((graph aLLM cLLM).stream { messages := [m] }).events.map Prod.snd =
        [{ messages := [m, HumanMessage t1 (some "Analysis Agent")] },
         { messages := [m, HumanMessage t1 (some "Analysis Agent"),
             HumanMessage t2 (some "Creative Agent")] }] := by
  obtain ⟨r1, r2, _, _, hev⟩ := stream_ok_spec aLLM cLLM { messages := [m] } hok
  exact ⟨r1.content, r2.content, by rw [hev]; rfl⟩

theorem claim_run_appends_two_messages_witness :
    hedgehog_message.hasImage = true ∧
    ((graph stub_caption_client stub_poem_client).stream
        { messages := [hedgehog_message] }).failed = none ∧
    ∃ t1 t2 : MessageContent,
      ((graph stub_caption_client stub_poem_client).stream
          { messages := [hedgehog_message] }).events.map Prod.snd =
        [{ messages := [hedgehog_message, HumanMessage t1 (some "Analysis Agent")] },
         { messages := [hedgehog_message, HumanMessage t1 (some "Analysis Agent"),
             HumanMessage t2 (some "Creative Agent")] }] :=
  ⟨rfl, rfl,
    claim_run_appends_two_messages stub_caption_client stub_poem_client hedgehog_message rfl rfl⟩

/-- C2: The conversation is append-only and each agent invocation appends
exactly one message: adjacent states of a run (starting from the initial
state) each extend the previous one by exactly one message, so no prior
message is lost or reordered and each stage's sequence is a strict prefix of
the next stage's. -/
theorem claim_conversation_append_only (aLLM cLLM : ModelClient) (init : State) :
    List.Chain (fun s t : State => ∃ m : Message, t.messages = s.messages ++ [m]) init
      (((graph aLLM cLLM).stream init).events.map Prod.snd) := by
  have h := graph_stream_eq aLLM cLLM init
  cases hi1 : (analysis_agent aLLM).invoke init.messages with
  | error e =>
      have h1 : agent_node init (analysis_agent aLLM) "Analysis Agent" = Except.error e := by
        simp [agent_node, hi1]
      rw [h1] at h
      rw [h]
      exact List.Chain.nil
  | ok r1 =>
      have h1 : agent_node init (analysis_agent aLLM) "Analysis Agent" =
          Except.ok { messages := [HumanMessage r1.content (some "Analysis Agent")] } := by
        simp [agent_node, hi1]
      simp only [h1, add_messages] at h
      cases hi2 : (creative_agent cLLM).invoke
          (init.messages ++ [HumanMessage r1.content (some "Analysis Agent")]) with
      | error e =>
          have h2 : agent_node
              { messages := init.messages ++ [HumanMessage r1.content (some "Analysis Agent")] }
              (creative_agent cLLM) "Creative Agent" = Except.error e := by
            simp [agent_node, hi2]
          simp only [h2] at h
          rw [h]
          exact List.Chain.cons ⟨_, rfl⟩ List.Chain.nil
      | ok r2 =>
          have h2 : agent_node
              { messages := init.messages ++ [HumanMessage r1.content (some "Analysis Agent")] }
              (creative_agent cLLM) "Creative Agent" =
              Except.ok { messages := [HumanMessage r2.content (some "Creative Agent")] } := by
            simp [agent_node, hi2]
          simp only [h2] at h
          rw [h]
          exact List.Chain.cons ⟨_, rfl⟩ (List.Chain.cons ⟨_, rfl⟩ List.Chain.nil)

/-- C3: If the Model Client for the Analyst stage fails, the run aborts with
the failure attributed to the Analyst stage and no events (hence no committed
messages); the result does not depend on the Creator's client at all, so the
Creator stage is never invoked. -/
theorem claim_analyst_failure_aborts (aLLM cLLM : ModelClient) (init : State) (e : ModelError)
    (hfail : (analysis_agent aLLM).invoke init.messages = Except.error e) :
    (graph aLLM cLLM).stream init = { events := [], failed := some ("Analysis Agent", e) } := by
  have h := graph_stream_eq aLLM cLLM init
  have h1 : agent_node init (analysis_agent aLLM) "Analysis Agent" = Except.error e := by
    simp [agent_node, hfail]
  rw [h1] at h
  exact h

theorem claim_analyst_failure_aborts_witness :
    (analysis_agent failing_client).invoke [hedgehog_message] =
      Except.error ModelError.connectionError ∧
    (graph failing_client stub_poem_client).stream { messages := [hedgehog_message] } =
      { events := [], failed := some ("Analysis Agent", ModelError.connectionError) } :=
  ⟨rfl,
    claim_analyst_failure_aborts failing_client stub_poem_client
      { messages := [hedgehog_message] } ModelError.connectionError rfl⟩

/-- C4: In every completed run the Creator agent is invoked only on the
conversation already containing the Analyst's message, and in the final
conversation the Analyst message's index is strictly less than the Creator
message's index. -/
theorem claim_creator_sees_analyst_output (aLLM cLLM : ModelClient) (init : State)
    (hok : ((graph aLLM cLLM).stream init).failed = none) :
    ∃ r1 r2 : Message,
      (creative_agent cLLM).invoke
        (init.messages ++ [HumanMessage r1.content (some "Analysis Agent")]) = Except.ok r2 ∧
      HumanMessage r1.content (some "Analysis Agent") ∈
        init.messages ++ [HumanMessage r1.content (some "Analysis Agent")] ∧
      ∃ finalState : State,
        ((graph aLLM cLLM).stream init).events.getLast? =
          some ("Creative Agent", finalState) ∧
        finalState.messages[init.messages.length]? =
          some (HumanMessage r1.content (some "Analysis Agent")) ∧
        finalState.messages[init.messages.length + 1]? =
          some (HumanMessage r2.content (some "Creative Agent")) ∧
        init.messages.length < init.messages.length + 1 := by
  obtain ⟨r1, r2, hi1, hi2, hev⟩ := stream_ok_spec aLLM cLLM init hok
  refine ⟨r1, r2, hi2, by simp, _, by rw [hev]; rfl, ?_, ?_, by omega⟩
  · rw [List.getElem?_append_left (by simp), List.getElem?_concat_length]
  · have hlen : (init.messages ++ [HumanMessage r1.content (some "Analysis Agent")]).length =
        init.messages.length + 1 := by simp
    rw [← hlen, List.getElem?_concat_length]

theorem claim_creator_sees_analyst_output_witness :
    ((graph stub_caption_client stub_poem_client).stream
        { messages := [hedgehog_message] }).failed = none ∧
    ∃ r1 r2 : Message,
      (creative_agent stub_poem_client).invoke
        ([hedgehog_message] ++ [HumanMessage r1.content (some "Analysis Agent")]) =
          Except.ok r2 ∧
      HumanMessage r1.content (some "Analysis Agent") ∈
        [hedgehog_message] ++ [HumanMessage r1.content (some "Analysis Agent")] ∧
      ∃ finalState : State,
        ((graph stub_caption_client stub_poem_client).stream
            { messages := [hedgehog_message] }).events.getLast? =
          some ("Creative Agent", finalState) ∧
        finalState.messages[([hedgehog_message] : List Message).length]? =
          some (HumanMessage r1.content (some "Analysis Agent")) ∧
        finalState.messages[([hedgehog_message] : List Message).length + 1]? =
          some (HumanMessage r2.content (some "Creative Agent")) ∧
        ([hedgehog_message] : List Message).length <
          ([hedgehog_message] : List Message).length + 1 :=
  ⟨rfl,
    claim_creator_sees_analyst_output stub_caption_client stub_poem_client
      { messages := [hedgehog_message] } rfl⟩

/-- C5: For every byte sequence read from an image file, encoding it into the
data-URI format (base64 payload prefixed with its media type) and decoding
the payload back yields a byte sequence identical to the original file
contents. -/
theorem claim_data_uri_roundtrip (imageBytes : List Nat)
    (hbytes : ∀ b ∈ imageBytes, b < 256) :
    ∃ payload : String,
      image_data_uri imageBytes = "data:image/jpeg;base64," ++ payload ∧
      b64decode payload.toList = imageBytes :=
  ⟨encoded_string imageBytes, rfl, b64decode_b64encode imageBytes hbytes⟩

theorem claim_data_uri_roundtrip_witness :
    (∀ b ∈ hedgehog_bytes, b < 256) ∧
    ∃ payload : String,
      image_data_uri hedgehog_bytes = "data:image/jpeg;base64," ++ payload ∧
      b64decode payload.toList = hedgehog_bytes :=
  ⟨by decide, claim_data_uri_roundtrip hedgehog_bytes (by decide)⟩

/-- C6: For every conversation given to an agent's respond operation, the
agent prepends its fixed system_instruction before delegating to its Model
Client, and wraps the returned text together with the agent's name into the
new Message it returns. -/
theorem claim_agent_prepends_system_instruction (llm : ModelClient)
    (system_prompt : String) (st : State) (name : String) (result : Message)
    (hllm : llm (SystemMessage system_prompt :: st.messages) = Except.ok result) :
    (create_agent llm system_prompt).invoke st.messages =
      llm (SystemMessage system_prompt :: st.messages) ∧
    agent_node st (create_agent llm system_prompt) name =
      Except.ok { messages := [HumanMessage result.content (some name)] } := by
  refine ⟨rfl, ?_⟩
  simp [agent_node, Agent.invoke, create_agent, ChatPromptTemplate.format, hllm]

theorem claim_agent_prepends_system_instruction_witness :
    stub_caption_client
        (SystemMessage creative_prompt :: ({ messages := [hedgehog_message] } : State).messages) =
      Except.ok (AIMessage "a small hedgehog on grass") ∧
    ((create_agent stub_caption_client creative_prompt).invoke
        ({ messages := [hedgehog_message] } : State).messages =
      stub_caption_client
        (SystemMessage creative_prompt :: ({ messages := [hedgehog_message] } : State).messages) ∧
    agent_node { messages := [hedgehog_message] }
        (create_agent stub_caption_client creative_prompt) "Analysis Agent" =
      Except.ok { messages :=
        [HumanMessage (AIMessage "a small hedgehog on grass").content
          (some "Analysis Agent")] }) :=
  ⟨rfl,
    claim_agent_prepends_system_instruction stub_caption_client creative_prompt
      { messages := [hedgehog_message] } "Analysis Agent"
      (AIMessage "a small hedgehog on grass") rfl⟩

/-- C7: An agent node does not mutate the input conversation: on success it
returns exactly one newly constructed Message, and merging the update leaves
every input message unchanged at its original position. -/
theorem claim_agent_no_mutation (st : State) (agent : Agent) (name : String) (upd : State)
    (h : agent_node st agent name = Except.ok upd) :
    (∃ result : Message, agent.invoke st.messages = Except.ok result ∧
        upd.messages = [HumanMessage result.content (some name)]) ∧
    upd.messages.length = 1 ∧
    (add_messages st.messages upd.messages).take st.messages.length = st.messages := by
  cases hi : agent.invoke st.messages with
  | error e => simp [agent_node, hi] at h
  | ok r =>
      simp only [agent_node, hi] at h
      cases h
      exact ⟨⟨r, rfl, rfl⟩, rfl, List.take_left _ _⟩

theorem claim_agent_no_mutation_witness :
    agent_node { messages := [hedgehog_message] }
        (create_agent stub_caption_client creative_prompt) "Analysis Agent" =
      Except.ok { messages :=
        [HumanMessage (MessageContent.text "a small hedgehog on grass")
          (some "Analysis Agent")] } ∧
    ((∃ result : Message,
        (create_agent stub_caption_client creative_prompt).invoke
            ({ messages := [hedgehog_message] } : State).messages = Except.ok result ∧
        [HumanMessage (MessageContent.text "a small hedgehog on grass")
            (some "Analysis Agent")] =
          [HumanMessage result.content (some "Analysis Agent")]) ∧
    ([HumanMessage (MessageContent.text "a small hedgehog on grass")
        (some "Analysis Agent")] : List Message).length = 1 ∧
    (add_messages ({ messages := [hedgehog_message] } : State).messages
        [HumanMessage (MessageContent.text "a small hedgehog on grass")
          (some "Analysis Agent")]).take
        ({ messages := [hedgehog_message] } : State).messages.length =
      ({ messages := [hedgehog_message] } : State).messages) :=
  ⟨rfl,
    claim_agent_no_mutation { messages := [hedgehog_message] }
      (create_agent stub_caption_client creative_prompt) "Analysis Agent"
      { messages :=
        [HumanMessage (MessageContent.text "a small hedgehog on grass")
          (some "Analysis Agent")] } rfl⟩

/-- C8: With the Analyst model stubbed to return the fixed caption and the
Creator model stubbed to return the fixed poem, running the pipeline on a
data-URI initial message prints exactly the two lines
("Analysis Agent", caption) then ("Creative Agent", poem). -/
theorem claim_example_scenario :
    stream_output ((graph stub_caption_client stub_poem_client).stream
        { messages := [hedgehog_message] }) =
      [(some "Analysis Agent", MessageContent.text "a small hedgehog on grass"),
       (some "Creative Agent", MessageContent.text "Quills like stars...")] ∧
    ((graph stub_caption_client stub_poem_client).stream
        { messages := [hedgehog_message] }).failed = none := by
  exact ⟨rfl, rfl⟩

/-- C9: Both agents are constructed with the same system instruction: the
Analyst agent is bound to creative_prompt rather than analysis_prompt (which
is never bound to any agent), and the two agents differ only in their backing
model client. -/
theorem claim_agents_share_prompt (analysis_llm creative_llm : ModelClient) :
    analysis_agent analysis_llm = create_agent analysis_llm creative_prompt ∧
    creative_agent creative_llm = create_agent creative_llm creative_prompt ∧
    (analysis_agent analysis_llm).prompt.system_prompt =
      (creative_agent creative_llm).prompt.system_prompt ∧
    (analysis_agent analysis_llm).prompt.system_prompt ≠ analysis_prompt ∧
    (analysis_agent analysis_llm).llm = analysis_llm ∧
    (creative_agent creative_llm).llm = creative_llm :=
  ⟨rfl, rfl, rfl, by show creative_prompt ≠ analysis_prompt; decide, rfl, rfl⟩

/-- C10: Every message an agent node appends is constructed as a HumanMessage
(role "human") regardless of being model-generated output, and carries the
producing agent's identity only in its name field. -/
theorem claim_appended_messages_human_named (st : State) (agent : Agent) (name : String)
    (upd : State) (h : agent_node st agent name = Except.ok upd) :
    ∀ m ∈ upd.messages, m.role = "human" ∧ m.name = some name := by
  cases hi : agent.invoke st.messages with
  | error e => simp [agent_node, hi] at h
  | ok r =>
      simp only [agent_node, hi] at h
      cases h
      intro m hm
      rw [List.mem_singleton] at hm
      subst hm
      exact ⟨rfl, rfl⟩

theorem claim_appended_messages_human_named_witness :
    agent_node { messages := [hedgehog_message] }
        (create_agent stub_caption_client creative_prompt) "Analysis Agent" =
      Except.ok { messages :=
        [HumanMessage (MessageContent.text "a small hedgehog on grass")
          (some "Analysis Agent")] } ∧
    ∀ m ∈ ({ messages :=
        [HumanMessage (MessageContent.text "a small hedgehog on grass")
          (some "Analysis Agent")] } : State).messages,
      m.role = "human" ∧ m.name = some "Analysis Agent" :=
  ⟨rfl,
    claim_appended_messages_human_named { messages := [hedgehog_message] }
      (create_agent stub_caption_client creative_prompt) "Analysis Agent"
      { messages :=
        [HumanMessage (MessageContent.text "a small hedgehog on grass")
          (some "Analysis Agent")] } rfl⟩

end PoemPipeline
